import Mathlib

/-!
Verification of src/calculator.py, a safe arithmetic-expression evaluator
built on the Python ast module.

The embedding mirrors the source:
- `BINARY_OPERATORS` / `UNARY_OPERATORS` model the two operator dictionaries
  (lines 10-23), mapping runtime operator kinds to the functions of the
  operator module.
- `SafeEvaluator.visit` models the NodeVisitor dispatch of class
  SafeEvaluator (lines 26-87): one arm per visit_X method, and the arms
  marked generic_visit model the fallthrough with its allowed_nodes tuple.
- `preprocess_expression` models lines 90-96 (caret to double star, strip).
- `pyParse` models the behaviour of ast.parse(prepared, mode="eval") on the
  fragment of the Python expression grammar these claims exercise:
  int/float literals (including exponent notation), True/False/None,
  string literals, identifiers, calls, attribute access, lists,
  comparisons, the seven arithmetic binary operators, unary plus/minus,
  and parentheses.
- `evaluate_expression` models lines 99-107, including the translation of
  SyntaxError into ValueError with a Russian prefix.

Model boundaries (none affects any claim):
- Python floats are modelled as exact rationals; every float value reached
  by the claims (1e10, 2.5, results of small integer divisions) is exactly
  representable in binary64, where the model and CPython agree.
- Power with a non-integral float exponent yields an irrational or complex
  number, outside the rational model; it is marked by the distinguished
  error `PyExc.NonIntegralPow` and exercised by no claim.
- Sequence repetition (str times int) and the bitwise operator tokens are
  not modelled; Python identifiers and string escapes are modelled at the
  ASCII level. No claim exercises these.
-/

/-- Python exceptions that the pipeline of calculator.py can surface or
translate. ValueError carries the message the source builds. -/
inductive PyExc where
  | ValueError (msg : String)
  | SyntaxError (msg : String)
  | ZeroDivisionError
  | TypeError (msg : String)
  | NonIntegralPow
  deriving DecidableEq

/-- Python runtime values reachable inside SafeEvaluator: ints, floats
(modelled as exact rationals), bools, strings and None. -/
inductive PyVal where
  | vint (n : Int)
  | vfloat (q : ℚ)
  | vbool (b : Bool)
  | vstr (s : String)
  | vnone
  deriving DecidableEq

/-- Constant payloads of ast.Constant nodes. -/
inductive PyConst where
  | cint (n : Int)
  | cfloat (q : ℚ)
  | cbool (b : Bool)
  | cstr (s : String)
  | cnone
  deriving DecidableEq

/-- Runtime kinds of ast binary-operator nodes (type(node.op)). The kinds
beyond the seven arithmetic ones exist in the ast module but are absent
from the BINARY_OPERATORS dictionary. -/
inductive BinOpKind where
  | add | sub | mult | div | floorDiv | mod | pow
  | bitAnd | bitOr | bitXor | lShift | rShift | matMult
  deriving DecidableEq

/-- The __name__ of the operator class, as interpolated into error
messages by visit_BinOp. -/
def BinOpKind.name : BinOpKind → String
  | .add => "Add"
  | .sub => "Sub"
  | .mult => "Mult"
  | .div => "Div"
  | .floorDiv => "FloorDiv"
  | .mod => "Mod"
  | .pow => "Pow"
  | .bitAnd => "BitAnd"
  | .bitOr => "BitOr"
  | .bitXor => "BitXor"
  | .lShift => "LShift"
  | .rShift => "RShift"
  | .matMult => "MatMult"

/-- Runtime kinds of ast unary-operator nodes. -/
inductive UnaryOpKind where
  | uAdd | uSub | notOp | invert
  deriving DecidableEq

/-- The __name__ of the unary operator class. -/
def UnaryOpKind.name : UnaryOpKind → String
  | .uAdd => "UAdd"
  | .uSub => "USub"
  | .notOp => "Not"
  | .invert => "Invert"

/-- The ast node shapes that can reach SafeEvaluator.visit: the eval-mode
root Expression, the arithmetic nodes, the explicitly rejected Name and
Call, and representative node kinds that fall to generic_visit
(Attribute, Compare, List, the statement wrapper Expr, and the Load
context marker). -/
inductive PyAst where
  | expression (body : PyAst)
  | binOp (left : PyAst) (op : BinOpKind) (right : PyAst)
  | unaryOp (op : UnaryOpKind) (operand : PyAst)
  | constant (value : PyConst)
  | num (value : PyConst)
  | name (id : String)
  | call (func : PyAst) (args : List PyAst)
  | attribute (value : PyAst) (attr : String)
  | compare (left : PyAst) (comparators : List PyAst)
  | list (elts : List PyAst)
  | exprStmt (value : PyAst)
  | load

/-- The __name__ of the node class, as interpolated into the
generic_visit error message. -/
def PyAst.kindName : PyAst → String
  | .expression _ => "Expression"
  | .binOp _ _ _ => "BinOp"
  | .unaryOp _ _ => "UnaryOp"
  | .constant _ => "Constant"
  | .num _ => "Num"
  | .name _ => "Name"
  | .call _ _ => "Call"
  | .attribute _ _ => "Attribute"
  | .compare _ _ => "Compare"
  | .list _ => "List"
  | .exprStmt _ => "Expr"
  | .load => "Load"

/-- Numeric reading of a value as an int, following the Python type
lattice in which bool is a subclass of int. -/
def PyVal.asIntish : PyVal → Option Int
  | .vint n => some n
  | .vbool b => some (cond b 1 0)
  | _ => none

/-- Numeric reading of a value as a real number (int, bool or float).
mkRat n 1 is the rational n; the core constructors are used throughout
the model so that every value computes by reduction. -/
def PyVal.asRat : PyVal → Option ℚ
  | .vint n => some (mkRat n 1)
  | .vbool b => some (mkRat (cond b 1 0) 1)
  | .vfloat q => some q
  | _ => none

/-- Rational addition through the normalizing constructor mkRat; the
library operations are irreducible, and these transparent versions let
every concrete run of the model compute by reduction. -/
def ratAdd (x y : ℚ) : ℚ := mkRat (x.num * y.den + y.num * x.den) (x.den * y.den)

/-- Rational subtraction through mkRat. -/
def ratSub (x y : ℚ) : ℚ := mkRat (x.num * y.den - y.num * x.den) (x.den * y.den)

/-- Rational multiplication through mkRat. -/
def ratMul (x y : ℚ) : ℚ := mkRat (x.num * y.num) (x.den * y.den)

/-- Rational division through mkRat, with the sign moved to the
numerator. -/
def ratDiv (x y : ℚ) : ℚ :=
  if 0 ≤ y.num then mkRat (x.num * y.den) (x.den * y.num.toNat)
  else mkRat (-(x.num * y.den)) (x.den * (-y.num).toNat)

/-- Floor of a rational: floor division of numerator by denominator. -/
def ratFloor (x : ℚ) : Int := Int.fdiv x.num x.den

/-- Iterated product of a rational. -/
def ratNpow (q : ℚ) : Nat → ℚ
  | 0 => mkRat 1 1
  | n + 1 => ratMul q (ratNpow q n)

/-- operator.add: int plus int stays int, any float makes a float,
str plus str concatenates. -/
def pyAdd (a b : PyVal) : Except PyExc PyVal :=
  match a.asIntish, b.asIntish with
  | some m, some n => .ok (.vint (m + n))
  | _, _ =>
    match a.asRat, b.asRat with
    | some x, some y => .ok (.vfloat (ratAdd x y))
    | _, _ =>
      match a, b with
      | .vstr s, .vstr t => .ok (.vstr (s ++ t))
      | _, _ => .error (.TypeError "unsupported operand type(s) for +")

/-- operator.sub. -/
def pySub (a b : PyVal) : Except PyExc PyVal :=
  match a.asIntish, b.asIntish with
  | some m, some n => .ok (.vint (m - n))
  | _, _ =>
    match a.asRat, b.asRat with
    | some x, some y => .ok (.vfloat (ratSub x y))
    | _, _ => .error (.TypeError "unsupported operand type(s) for -")

/-- operator.mul (sequence repetition is outside the model). -/
def pyMul (a b : PyVal) : Except PyExc PyVal :=
  match a.asIntish, b.asIntish with
  | some m, some n => .ok (.vint (m * n))
  | _, _ =>
    match a.asRat, b.asRat with
    | some x, some y => .ok (.vfloat (ratMul x y))
    | _, _ => .error (.TypeError "unsupported operand type(s) for *")

/-- operator.truediv: always a float on numeric operands, and
ZeroDivisionError when the divisor is zero. -/
def pyDiv (a b : PyVal) : Except PyExc PyVal :=
  match a.asRat, b.asRat with
  | some x, some y =>
    if y = 0 then .error .ZeroDivisionError else .ok (.vfloat (ratDiv x y))
  | _, _ => .error (.TypeError "unsupported operand type(s) for /")

/-- operator.floordiv: floor division, int on int operands, float when a
float is involved, ZeroDivisionError on a zero divisor. -/
def pyFloorDiv (a b : PyVal) : Except PyExc PyVal :=
  match a.asIntish, b.asIntish with
  | some m, some n =>
    if n = 0 then .error .ZeroDivisionError else .ok (.vint (Int.fdiv m n))
  | _, _ =>
    match a.asRat, b.asRat with
    | some x, some y =>
      if y = 0 then .error .ZeroDivisionError
      else .ok (.vfloat (mkRat (ratFloor (ratDiv x y)) 1))
    | _, _ => .error (.TypeError "unsupported operand type(s) for //")

/-- operator.mod: remainder with the sign of the divisor, matching
Int.fmod on ints, ZeroDivisionError on a zero divisor. -/
def pyMod (a b : PyVal) : Except PyExc PyVal :=
  match a.asIntish, b.asIntish with
  | some m, some n =>
    if n = 0 then .error .ZeroDivisionError else .ok (.vint (Int.fmod m n))
  | _, _ =>
    match a.asRat, b.asRat with
    | some x, some y =>
      if y = 0 then .error .ZeroDivisionError
      else .ok (.vfloat (ratSub x (ratMul y (mkRat (ratFloor (ratDiv x y)) 1))))
    | _, _ => .error (.TypeError "unsupported operand type(s) for %")

/-- operator.pow: int base and nonnegative int exponent stay int; a
negative int exponent gives a float, raising ZeroDivisionError on a zero
base; float operands with an integral exponent follow the same rules.
A non-integral float exponent leaves the rational model (see header). -/
def pyPow (a b : PyVal) : Except PyExc PyVal :=
  match a.asIntish, b.asIntish with
  | some m, some e =>
    if 0 ≤ e then .ok (.vint (m ^ e.toNat))
    else if m = 0 then .error .ZeroDivisionError
    else .ok (.vfloat (ratDiv (mkRat 1 1) (ratNpow (mkRat m 1) (-e).toNat)))
  | _, _ =>
    match a.asRat, b.asRat with
    | some x, some y =>
      if y.den = 1 then
        if 0 ≤ y.num then .ok (.vfloat (ratNpow x y.num.toNat))
        else if x = 0 then .error .ZeroDivisionError
        else .ok (.vfloat (ratDiv (mkRat 1 1) (ratNpow x (-y.num).toNat)))
      else .error .NonIntegralPow
    | _, _ => .error (.TypeError "unsupported operand type(s) for **")

/-- operator.pos: identity on numbers; applied to a bool it promotes to
int, as in Python. -/
def pyPos : PyVal → Except PyExc PyVal
  | .vint n => .ok (.vint n)
  | .vbool b => .ok (.vint (cond b 1 0))
  | .vfloat q => .ok (.vfloat q)
  | _ => .error (.TypeError "bad operand type for unary +")

/-- operator.neg. -/
def pyNeg : PyVal → Except PyExc PyVal
  | .vint n => .ok (.vint (-n))
  | .vbool b => .ok (.vint (-(cond b 1 0)))
  | .vfloat q => .ok (.vfloat (-q))
  | _ => .error (.TypeError "bad operand type for unary -")

/-- The BINARY_OPERATORS dictionary (lines 10-18): operator kind to
function, None for kinds absent from the dictionary. -/
def BINARY_OPERATORS : BinOpKind → Option (PyVal → PyVal → Except PyExc PyVal)
  | .add => some pyAdd
  | .sub => some pySub
  | .mult => some pyMul
  | .div => some pyDiv
  | .floorDiv => some pyFloorDiv
  | .mod => some pyMod
  | .pow => some pyPow
  | _ => none

/-- The UNARY_OPERATORS dictionary (lines 20-23). -/
def UNARY_OPERATORS : UnaryOpKind → Option (PyVal → Except PyExc PyVal)
  | .uAdd => some pyPos
  | .uSub => some pyNeg
  | _ => none

/-- constant node payload as a runtime value. -/
def PyConst.toVal : PyConst → PyVal
  | .cint n => .vint n
  | .cfloat q => .vfloat q
  | .cbool b => .vbool b
  | .cstr s => .vstr s
  | .cnone => .vnone

/-- isinstance(node.value, (int, float)) of visit_Constant, line 51: in
Python bool is a subclass of int, so boolean constants pass this check. -/
def PyConst.isIntOrFloatInstance : PyConst → Bool
  | .cint _ => true
  | .cfloat _ => true
  | .cbool _ => true
  | _ => false

/-- Lines 35-41 of visit_BinOp: look the operator kind up in
BINARY_OPERATORS, apply it under try/except ZeroDivisionError, and
translate that exception into the Russian division-by-zero ValueError.
Any other exception of the applied function propagates untouched. -/
def binOpApply (op : BinOpKind) (left right : PyVal) : Except PyExc PyVal :=
  match BINARY_OPERATORS op with
  | some f =>
    match f left right with
    | .error .ZeroDivisionError => .error (.ValueError "Деление на ноль недопустимо")
    | other => other
  | none => .error (.ValueError ("Недопустимая бинарная операция: " ++ op.name))

/-- Lines 45-48 of visit_UnaryOp: operator lookup with no try/except. -/
def unaryOpApply (op : UnaryOpKind) (v : PyVal) : Except PyExc PyVal :=
  match UNARY_OPERATORS op with
  | some f => f v
  | none => .error (.ValueError ("Недопустимая унарная операция: " ++ op.name))

/-- SafeEvaluator dispatch: one arm per visit_X method of the class, and
the final arms model generic_visit (lines 66-87). generic_visit first
tests membership in the allowed_nodes tuple: Load and Expr are members,
so they are visited structurally (children first, then the None result of
NodeVisitor.generic_visit); Attribute, Compare and List are not members
and raise the invalid-construct ValueError before looking at children. -/
def SafeEvaluator.visit : PyAst → Except PyExc PyVal
  | .expression body => SafeEvaluator.visit body
  | .binOp l op r =>
    match SafeEvaluator.visit l with
    | .error e => .error e
    | .ok left =>
      match SafeEvaluator.visit r with
      | .error e => .error e
      | .ok right => binOpApply op left right
  | .unaryOp op operand =>
    match SafeEvaluator.visit operand with
    | .error e => .error e
    | .ok v => unaryOpApply op v
  | .constant c =>
    if c.isIntOrFloatInstance then .ok c.toVal
    else .error (.ValueError "Разрешены только числовые литералы")
  | .num c => .ok c.toVal
  | .name _ => .error (.ValueError "Имена/переменные не разрешены")
  | .call _ _ => .error (.ValueError "Вызовы функций не разрешены")
  | .load => .ok .vnone
  | .exprStmt v =>
    match SafeEvaluator.visit v with
    | .error e => .error e
    | .ok _ => .ok .vnone
  | .attribute _ _ => .error (.ValueError ("Недопустимая конструкция: " ++ "Attribute"))
  | .compare _ _ => .error (.ValueError ("Недопустимая конструкция: " ++ "Compare"))
  | .list _ => .error (.ValueError ("Недопустимая конструкция: " ++ "List"))

/-- The whitespace set of str.strip with no argument (ASCII part). -/
def isPySpace (c : Char) : Bool :=
  c = ' ' || c = '\t' || c = '\n' || c = '\r' || c = '\x0b' || c = '\x0c'

/-- expression.replace of line 96 specialised to the one-character
pattern: every caret becomes the two-character power operator. -/
def caretToPow : List Char → List Char
  | [] => []
  | c :: cs => if c = '^' then '*' :: '*' :: caretToPow cs else c :: caretToPow cs

/-- str.strip: drop leading and trailing whitespace. -/
def pyStrip (cs : List Char) : List Char :=
  ((cs.dropWhile isPySpace).reverse.dropWhile isPySpace).reverse

/-- preprocess_expression, lines 90-96. -/
def preprocess_expression (s : String) : String :=
  ⟨pyStrip (caretToPow s.data)⟩

/-- Tokens of the modelled fragment of the Python expression grammar. -/
inductive Tok where
  | tint (n : Nat)
  | tfloat (q : ℚ)
  | tname (s : String)
  | tstr (s : String)
  | kwTrue | kwFalse | kwNone
  | kwReserved (s : String)
  | plus | minus | star | dstar | slash | dslash | percent
  | lparen | rparen | lbrack | rbrack | comma | dot
  | lt | gt | le | ge | eqeq | ne
  deriving DecidableEq

/-- Python keywords: reserved words that can never be identifiers. -/
def pythonKeywords : List String :=
  ["False", "None", "True", "and", "as", "assert", "async", "await",
   "break", "class", "continue", "def", "del", "elif", "else", "except",
   "finally", "for", "from", "global", "if", "import", "in", "is",
   "lambda", "nonlocal", "not", "or", "pass", "raise", "return", "try",
   "while", "with", "yield"]

/-- First character of a Python identifier (ASCII level). -/
def isIdentStart (c : Char) : Bool := c.isAlpha || c = '_'

/-- Continuation character of a Python identifier (ASCII level). -/
def isIdentChar (c : Char) : Bool := c.isAlphanum || c = '_'

/-- Decimal digits to a natural number. -/
def digitsToNat (ds : List Char) : Nat :=
  ds.foldl (fun a c => 10 * a + (c.toNat - 48)) 0

/-- Exponent part of a float literal: e or E, an optional sign, and at
least one digit, else the CPython message invalid decimal literal. -/
def expPart : List Char → Except PyExc (Option Int × List Char)
  | 'e' :: rest =>
    match rest with
    | '+' :: rs =>
      let ds := rs.takeWhile Char.isDigit
      if ds.isEmpty then .error (.SyntaxError "invalid decimal literal")
      else .ok (some (digitsToNat ds), rs.dropWhile Char.isDigit)
    | '-' :: rs =>
      let ds := rs.takeWhile Char.isDigit
      if ds.isEmpty then .error (.SyntaxError "invalid decimal literal")
      else .ok (some (-(digitsToNat ds : Int)), rs.dropWhile Char.isDigit)
    | rs =>
      let ds := rs.takeWhile Char.isDigit
      if ds.isEmpty then .error (.SyntaxError "invalid decimal literal")
      else .ok (some (digitsToNat ds), rs.dropWhile Char.isDigit)
  | 'E' :: rest =>
    match rest with
    | '+' :: rs =>
      let ds := rs.takeWhile Char.isDigit
      if ds.isEmpty then .error (.SyntaxError "invalid decimal literal")
      else .ok (some (digitsToNat ds), rs.dropWhile Char.isDigit)
    | '-' :: rs =>
      let ds := rs.takeWhile Char.isDigit
      if ds.isEmpty then .error (.SyntaxError "invalid decimal literal")
      else .ok (some (-(digitsToNat ds : Int)), rs.dropWhile Char.isDigit)
    | rs =>
      let ds := rs.takeWhile Char.isDigit
      if ds.isEmpty then .error (.SyntaxError "invalid decimal literal")
      else .ok (some (digitsToNat ds), rs.dropWhile Char.isDigit)
  | cs => .ok (none, cs)

/-- Lex one numeric literal: digits, an optional fraction, an optional
exponent. The token is an int only when neither fraction dot nor exponent
is present. A literal directly followed by an identifier character is the
CPython error invalid decimal literal. -/
def lexNumber (cs : List Char) : Except PyExc (Tok × List Char) :=
  let ip := cs.takeWhile Char.isDigit
  let r1 := cs.dropWhile Char.isDigit
  let fracRes : List Char × List Char × Bool :=
    match r1 with
    | '.' :: rs => (rs.takeWhile Char.isDigit, rs.dropWhile Char.isDigit, true)
    | _ => ([], r1, false)
  match fracRes with
  | (fp, r2, hasDot) =>
    match expPart r2 with
    | .error e => .error e
    | .ok (eopt, r3) =>
      if (r3.head?.map isIdentStart).getD false then
        .error (.SyntaxError "invalid decimal literal")
      else if hasDot || eopt.isSome then
        let ex : Int := eopt.getD 0
        let q : ℚ :=
          if 0 ≤ ex then mkRat (digitsToNat (ip ++ fp) * 10 ^ ex.toNat) (10 ^ fp.length)
          else mkRat (digitsToNat (ip ++ fp)) (10 ^ fp.length * 10 ^ (-ex).toNat)
        .ok (.tfloat q, r3)
      else .ok (.tint (digitsToNat ip), r3)

/-- Lex one operator or punctuation token. Characters outside the
modelled fragment are rejected as a syntax error. -/
def lexSymbol (c : Char) (cs : List Char) : Except PyExc (Tok × List Char) :=
  if c = '+' then .ok (.plus, cs)
  else if c = '-' then .ok (.minus, cs)
  else if c = '*' then
    match cs with
    | '*' :: rest => .ok (.dstar, rest)
    | _ => .ok (.star, cs)
  else if c = '/' then
    match cs with
    | '/' :: rest => .ok (.dslash, rest)
    | _ => .ok (.slash, cs)
  else if c = '%' then .ok (.percent, cs)
  else if c = '(' then .ok (.lparen, cs)
  else if c = ')' then .ok (.rparen, cs)
  else if c = '[' then .ok (.lbrack, cs)
  else if c = ']' then .ok (.rbrack, cs)
  else if c = ',' then .ok (.comma, cs)
  else if c = '.' then .ok (.dot, cs)
  else if c = '<' then
    match cs with
    | '=' :: rest => .ok (.le, rest)
    | _ => .ok (.lt, cs)
  else if c = '>' then
    match cs with
    | '=' :: rest => .ok (.ge, rest)
    | _ => .ok (.gt, cs)
  else if c = '=' then
    match cs with
    | '=' :: rest => .ok (.eqeq, rest)
    | _ => .error (.SyntaxError "invalid syntax")
  else if c = '!' then
    match cs with
    | '=' :: rest => .ok (.ne, rest)
    | _ => .error (.SyntaxError "invalid syntax")
  else .error (.SyntaxError "invalid syntax")

/-- The tokenizer loop; fuel strictly exceeds the character count, and
every step consumes at least one character, so the fuel branch is never
reached from tokenize. -/
def tokenizeAux : Nat → List Char → Except PyExc (List Tok)
  | 0, _ => .error (.SyntaxError "tokenizer fuel exhausted")
  | _ + 1, [] => .ok []
  | fuel + 1, c :: cs =>
    if isPySpace c then tokenizeAux fuel cs
    else if c.isDigit || (c = '.' && ((cs.head?.map Char.isDigit).getD false)) then
      match lexNumber (c :: cs) with
      | .error e => .error e
      | .ok (t, rest) =>
        match tokenizeAux fuel rest with
        | .error e => .error e
        | .ok ts => .ok (t :: ts)
    else if isIdentStart c then
      let word := (c :: cs).takeWhile isIdentChar
      let rest := (c :: cs).dropWhile isIdentChar
      let w : String := ⟨word⟩
      let t : Tok :=
        if w = "True" then .kwTrue
        else if w = "False" then .kwFalse
        else if w = "None" then .kwNone
        else if pythonKeywords.contains w then .kwReserved w
        else .tname w
      match tokenizeAux fuel rest with
      | .error e => .error e
      | .ok ts => .ok (t :: ts)
    else if c = '"' || c.toNat = 39 then
      let body := cs.takeWhile (fun d => d != c)
      let rest := cs.dropWhile (fun d => d != c)
      match rest with
      | _ :: r =>
        match tokenizeAux fuel r with
        | .error e => .error e
        | .ok ts => .ok (.tstr ⟨body⟩ :: ts)
      | [] => .error (.SyntaxError "unterminated string literal")
    else
      match lexSymbol c cs with
      | .error e => .error e
      | .ok (t, rest) =>
        match tokenizeAux fuel rest with
        | .error e => .error e
        | .ok ts => .ok (t :: ts)

/-- Tokenize a normalized expression string. -/
def tokenize (cs : List Char) : Except PyExc (List Tok) :=
  tokenizeAux (cs.length + 1) cs

mutual

/-- comparison: an arithmetic expression optionally followed by
comparison operators; any comparator chain yields a Compare node. -/
def parseComp : Nat → List Tok → Except PyExc (PyAst × List Tok)
  | 0, _ => .error (.SyntaxError "parser fuel exhausted")
  | fuel + 1, toks =>
    match parseArith fuel toks with
    | .error e => .error e
    | .ok (first, rest) =>
      match parseCompRest fuel rest with
      | .error e => .error e
      | .ok ([], rest2) => .ok (first, rest2)
      | .ok (comps, rest2) => .ok (.compare first comps, rest2)

/-- The comparator chain after the first arithmetic expression. -/
def parseCompRest : Nat → List Tok → Except PyExc (List PyAst × List Tok)
  | 0, _ => .error (.SyntaxError "parser fuel exhausted")
  | fuel + 1, toks =>
    match toks with
    | t :: rest =>
      if t = .lt || t = .gt || t = .le || t = .ge || t = .eqeq || t = .ne then
        match parseArith fuel rest with
        | .error e => .error e
        | .ok (a, rest2) =>
          match parseCompRest fuel rest2 with
          | .error e => .error e
          | .ok (more, rest3) => .ok (a :: more, rest3)
      else .ok ([], toks)
    | [] => .ok ([], toks)

/-- expr: term ((plus or minus) term)*, left associative. -/
def parseArith : Nat → List Tok → Except PyExc (PyAst × List Tok)
  | 0, _ => .error (.SyntaxError "parser fuel exhausted")
  | fuel + 1, toks =>
    match parseTerm fuel toks with
    | .error e => .error e
    | .ok (first, rest) => parseArithLoop fuel first rest

/-- Left-associative fold of the additive operators. -/
def parseArithLoop : Nat → PyAst → List Tok → Except PyExc (PyAst × List Tok)
  | 0, _, _ => .error (.SyntaxError "parser fuel exhausted")
  | fuel + 1, acc, toks =>
    match toks with
    | .plus :: rest =>
      match parseTerm fuel rest with
      | .error e => .error e
      | .ok (rhs, rest2) => parseArithLoop fuel (.binOp acc .add rhs) rest2
    | .minus :: rest =>
      match parseTerm fuel rest with
      | .error e => .error e
      | .ok (rhs, rest2) => parseArithLoop fuel (.binOp acc .sub rhs) rest2
    | _ => .ok (acc, toks)

/-- term: factor ((star, slash, double slash or percent) factor)*. -/
def parseTerm : Nat → List Tok → Except PyExc (PyAst × List Tok)
  | 0, _ => .error (.SyntaxError "parser fuel exhausted")
  | fuel + 1, toks =>
    match parseFactor fuel toks with
    | .error e => .error e
    | .ok (first, rest) => parseTermLoop fuel first rest

/-- Left-associative fold of the multiplicative operators. -/
def parseTermLoop : Nat → PyAst → List Tok → Except PyExc (PyAst × List Tok)
  | 0, _, _ => .error (.SyntaxError "parser fuel exhausted")
  | fuel + 1, acc, toks =>
    match toks with
    | .star :: rest =>
      match parseFactor fuel rest with
      | .error e => .error e
      | .ok (rhs, rest2) => parseTermLoop fuel (.binOp acc .mult rhs) rest2
    | .slash :: rest =>
      match parseFactor fuel rest with
      | .error e => .error e
      | .ok (rhs, rest2) => parseTermLoop fuel (.binOp acc .div rhs) rest2
    | .dslash :: rest =>
      match parseFactor fuel rest with
      | .error e => .error e
      | .ok (rhs, rest2) => parseTermLoop fuel (.binOp acc .floorDiv rhs) rest2
    | .percent :: rest =>
      match parseFactor fuel rest with
      | .error e => .error e
      | .ok (rhs, rest2) => parseTermLoop fuel (.binOp acc .mod rhs) rest2
    | _ => .ok (acc, toks)

/-- factor: unary plus or minus applied to a factor, or a power. -/
def parseFactor : Nat → List Tok → Except PyExc (PyAst × List Tok)
  | 0, _ => .error (.SyntaxError "parser fuel exhausted")
  | fuel + 1, toks =>
    match toks with
    | .plus :: rest =>
      match parseFactor fuel rest with
      | .error e => .error e
      | .ok (v, rest2) => .ok (.unaryOp .uAdd v, rest2)
    | .minus :: rest =>
      match parseFactor fuel rest with
      | .error e => .error e
      | .ok (v, rest2) => .ok (.unaryOp .uSub v, rest2)
    | _ => parsePower fuel toks

/-- power: a primary optionally raised to a factor; the right operand
being a factor makes the power operator right associative and lets it
take a unary-signed exponent. -/
def parsePower : Nat → List Tok → Except PyExc (PyAst × List Tok)
  | 0, _ => .error (.SyntaxError "parser fuel exhausted")
  | fuel + 1, toks =>
    match parseAtomTrailers fuel toks with
    | .error e => .error e
    | .ok (base, rest) =>
      match rest with
      | .dstar :: rest2 =>
        match parseFactor fuel rest2 with
        | .error e => .error e
        | .ok (ex, rest3) => .ok (.binOp base .pow ex, rest3)
      | _ => .ok (base, rest)

/-- primary: an atom followed by call and attribute trailers. -/
def parseAtomTrailers : Nat → List Tok → Except PyExc (PyAst × List Tok)
  | 0, _ => .error (.SyntaxError "parser fuel exhausted")
  | fuel + 1, toks =>
    match parseAtom fuel toks with
    | .error e => .error e
    | .ok (a, rest) => parseTrailers fuel a rest

/-- Call and attribute trailers applied to an already parsed primary. -/
def parseTrailers : Nat → PyAst → List Tok → Except PyExc (PyAst × List Tok)
  | 0, _, _ => .error (.SyntaxError "parser fuel exhausted")
  | fuel + 1, acc, toks =>
    match toks with
    | .lparen :: rest =>
      match rest with
      | .rparen :: rest2 => parseTrailers fuel (.call acc []) rest2
      | _ =>
        match parseArgs fuel rest with
        | .error e => .error e
        | .ok (args, rest2) => parseTrailers fuel (.call acc args) rest2
    | .dot :: rest =>
      match rest with
      | .tname a :: rest2 => parseTrailers fuel (.attribute acc a) rest2
      | _ => .error (.SyntaxError "invalid syntax")
    | _ => .ok (acc, toks)

/-- Nonempty argument list up to and including the closing parenthesis. -/
def parseArgs : Nat → List Tok → Except PyExc (List PyAst × List Tok)
  | 0, _ => .error (.SyntaxError "parser fuel exhausted")
  | fuel + 1, toks =>
    match parseComp fuel toks with
    | .error e => .error e
    | .ok (a, rest) =>
      match rest with
      | .comma :: rest2 =>
        match parseArgs fuel rest2 with
        | .error e => .error e
        | .ok (more, rest3) => .ok (a :: more, rest3)
      | .rparen :: rest2 => .ok ([a], rest2)
      | _ => .error (.SyntaxError "invalid syntax")

/-- Nonempty list display elements up to and including the closing
bracket. -/
def parseListElems : Nat → List Tok → Except PyExc (List PyAst × List Tok)
  | 0, _ => .error (.SyntaxError "parser fuel exhausted")
  | fuel + 1, toks =>
    match parseComp fuel toks with
    | .error e => .error e
    | .ok (a, rest) =>
      match rest with
      | .comma :: rest2 =>
        match parseListElems fuel rest2 with
        | .error e => .error e
        | .ok (more, rest3) => .ok (a :: more, rest3)
      | .rbrack :: rest2 => .ok ([a], rest2)
      | _ => .error (.SyntaxError "invalid syntax")

/-- atom: a literal, an identifier, a parenthesized expression or a list
display. Reserved keywords other than True, False and None fit no rule
and are syntax errors, as in the Python grammar. -/
def parseAtom : Nat → List Tok → Except PyExc (PyAst × List Tok)
  | 0, _ => .error (.SyntaxError "parser fuel exhausted")
  | fuel + 1, toks =>
    match toks with
    | .tint n :: rest => .ok (.constant (.cint n), rest)
    | .tfloat q :: rest => .ok (.constant (.cfloat q), rest)
    | .tname s :: rest => .ok (.name s, rest)
    | .tstr s :: rest => .ok (.constant (.cstr s), rest)
    | .kwTrue :: rest => .ok (.constant (.cbool true), rest)
    | .kwFalse :: rest => .ok (.constant (.cbool false), rest)
    | .kwNone :: rest => .ok (.constant .cnone, rest)
    | .lparen :: rest =>
      match parseComp fuel rest with
      | .error e => .error e
      | .ok (inner, rest2) =>
        match rest2 with
        | .rparen :: rest3 => .ok (inner, rest3)
        | _ => .error (.SyntaxError "invalid syntax")
    | .lbrack :: rest =>
      match rest with
      | .rbrack :: rest2 => .ok (.list [], rest2)
      | _ =>
        match parseListElems fuel rest with
        | .error e => .error e
        | .ok (es, rest2) => .ok (.list es, rest2)
    | _ => .error (.SyntaxError "invalid syntax")

end

/-- ast.parse(text, mode="eval") on the modelled fragment: tokenize,
parse one expression, demand that every token is consumed, and wrap the
result in the eval-mode Expression root. -/
def pyParse (s : String) : Except PyExc PyAst :=
  match tokenize s.data with
  | .error e => .error e
  | .ok [] => .error (.SyntaxError "invalid syntax")
  | .ok toks =>
    match parseComp (8 * (toks.length + 1)) toks with
    | .error e => .error e
    | .ok (body, []) => .ok (.expression body)
    | .ok (_, _ :: _) => .error (.SyntaxError "invalid syntax")

/-- evaluate_expression, lines 99-107: preprocess, parse, translate a
SyntaxError into ValueError with the Russian prefix, then visit. -/
def evaluate_expression (s : String) : Except PyExc PyVal :=
  match pyParse (preprocess_expression s) with
  | .error (.SyntaxError msg) => .error (.ValueError ("Синтаксическая ошибка: " ++ msg))
  | .error e => .error e
  | .ok tree => SafeEvaluator.visit tree

deriving instance DecidableEq for Except

/-- True when the result is an error, of any exception kind. -/
def evalFails : Except PyExc PyVal → Bool
  | .ok _ => false
  | .error _ => true

mutual

/-- Syntactic containment of a Name or Call node anywhere in a tree. -/
def containsNameOrCall : PyAst → Bool
  | .name _ => true
  | .call _ _ => true
  | .expression b => containsNameOrCall b
  | .binOp l _ r => containsNameOrCall l || containsNameOrCall r
  | .unaryOp _ v => containsNameOrCall v
  | .exprStmt v => containsNameOrCall v
  | .attribute v _ => containsNameOrCall v
  | .compare l cs => containsNameOrCall l || containsNameOrCallList cs
  | .list es => containsNameOrCallList es
  | .constant _ => false
  | .num _ => false
  | .load => false

/-- Containment over a list of children. -/
def containsNameOrCallList : List PyAst → Bool
  | [] => false
  | x :: xs => containsNameOrCall x || containsNameOrCallList xs

end

mutual

/-- Nesting depth of a tree. -/
def PyAst.depth : PyAst → Nat
  | .expression b => b.depth + 1
  | .binOp l _ r => max l.depth r.depth + 1
  | .unaryOp _ v => v.depth + 1
  | .constant _ => 1
  | .num _ => 1
  | .name _ => 1
  | .load => 1
  | .call f args => max f.depth (PyAst.depthList args) + 1
  | .attribute v _ => v.depth + 1
  | .compare l cs => max l.depth (PyAst.depthList cs) + 1
  | .list es => PyAst.depthList es + 1
  | .exprStmt v => v.depth + 1

/-- Depth over a list of children. -/
def PyAst.depthList : List PyAst → Nat
  | [] => 0
  | x :: xs => max x.depth (PyAst.depthList xs)

end

/-- A chain of n unary-plus nodes around the literal 0: a structurally
valid tree of depth n + 1. -/
def nestPos : Nat → PyAst
  | 0 => .constant (.cint 0)
  | n + 1 => .unaryOp .uAdd (nestPos n)

/-- Values on which isinstance(v, (int, float)) holds, bool included. -/
def isNumericVal : PyVal → Bool
  | .vint _ => true
  | .vfloat _ => true
  | .vbool _ => true
  | _ => false

/-- Numeric values equal to zero, as tested by the Python arithmetic
operators: the int 0, the float 0.0, and False. -/
def isZeroVal : PyVal → Bool
  | .vint n => n == 0
  | .vfloat q => q == 0
  | .vbool b => !b
  | _ => false

/-- Node kinds with no dedicated visit_X method, whose dispatch falls
through to generic_visit. -/
def reachesGenericVisit : PyAst → Bool
  | .attribute _ _ => true
  | .compare _ _ => true
  | .list _ => true
  | .exprStmt _ => true
  | .load => true
  | _ => false

/-- Membership in the allowed_nodes tuple of generic_visit, lines 67-84,
restricted to the node kinds of the model (the operator kinds of the
tuple are fields of BinOp and UnaryOp nodes here, not nodes). -/
def inAllowedNodes : PyAst → Bool
  | .expression _ => true
  | .binOp _ _ _ => true
  | .unaryOp _ _ => true
  | .constant _ => true
  | .num _ => true
  | .load => true
  | .exprStmt _ => true
  | _ => false

/-- True when a character list starts with a non-whitespace character or
is empty. -/
def noLeadingPySpace : List Char → Bool
  | [] => true
  | c :: _ => !isPySpace c

/-- True when the result is the float with the given normalized numerator
and denominator: isFloatResult r 5 2 says r is ok with the float 5/2. -/
def isFloatResult (r : Except PyExc PyVal) (n : Int) (d : Nat) : Bool :=
  match r with
  | .ok (.vfloat q) => q.num == n && q.den == d
  | _ => false

/-- A tree containing a Name or a Call node never evaluates: the
dedicated visitors raise, every structural visitor evaluates all children
whose values it needs before combining them, and every remaining node
kind either rejects at once or visits all its children. -/
theorem visit_err_of_contains : ∀ (t : PyAst), containsNameOrCall t = true →
    evalFails (SafeEvaluator.visit t) = true
  | .name _, _ => rfl
  | .call _ _, _ => rfl
  | .attribute _ _, _ => rfl
  | .compare _ _, _ => rfl
  | .list _, _ => rfl
  | .constant _, h => by simp [containsNameOrCall] at h
  | .num _, h => by simp [containsNameOrCall] at h
  | .load, h => by simp [containsNameOrCall] at h
  | .expression b, h => by
    have ih := visit_err_of_contains b (by simpa [containsNameOrCall] using h)
    simpa [SafeEvaluator.visit] using ih
  | .unaryOp op v, h => by
    have ih := visit_err_of_contains v (by simpa [containsNameOrCall] using h)
    cases hv : SafeEvaluator.visit v with
    | error e => simp [SafeEvaluator.visit, hv, evalFails]
    | ok w => rw [hv] at ih; simp [evalFails] at ih
  | .exprStmt v, h => by
    have ih := visit_err_of_contains v (by simpa [containsNameOrCall] using h)
    cases hv : SafeEvaluator.visit v with
    | error e => simp [SafeEvaluator.visit, hv, evalFails]
    | ok w => rw [hv] at ih; simp [evalFails] at ih
  | .binOp l op r, h => by
    have h2 : (containsNameOrCall l || containsNameOrCall r) = true := by
      simpa [containsNameOrCall] using h
    cases hl : SafeEvaluator.visit l with
    | error e => simp [SafeEvaluator.visit, hl, evalFails]
    | ok lv =>
      have hcl : containsNameOrCall l = false := by
        cases hc : containsNameOrCall l
        · rfl
        · have hfail := visit_err_of_contains l hc
          rw [hl] at hfail
          simp [evalFails] at hfail
      have hcr : containsNameOrCall r = true := by
        rw [hcl] at h2
        simpa using h2
      cases hr : SafeEvaluator.visit r with
      | error e => simp [SafeEvaluator.visit, hl, hr, evalFails]
      | ok rv =>
        have hfail := visit_err_of_contains r hcr
        rw [hr] at hfail
        simp [evalFails] at hfail

/-- C1: for every input string whose parse succeeds and contains an
identifier (Name) or call syntax (Call) anywhere in the tree,
evaluate_expression fails with an error and never produces a result; the
evaluator has no resolution or call machinery at all, visit_Name and
visit_Call raise unconditionally, so no identifier is resolved and no
call is performed. -/
theorem C1_names_and_calls_never_evaluate (s : String) (t : PyAst)
    (hp : pyParse (preprocess_expression s) = .ok t)
    (hc : containsNameOrCall t = true) :
    evalFails (evaluate_expression s) = true := by
  unfold evaluate_expression
  rw [hp]
  exact visit_err_of_contains t hc

/-- C1 witness: the identifier input x + 1 parses to a tree containing a
Name node and evaluation fails. -/
theorem C1_witness : evalFails (evaluate_expression "x + 1") = true :=
  C1_names_and_calls_never_evaluate "x + 1"
    (.expression (.binOp (.name "x") .add (.constant (.cint 1)))) rfl rfl

/-- Both operands of a binary node are evaluated left to right before the
operator is applied. -/
theorem visit_binOp_def (l r : PyAst) (op : BinOpKind) (lv rv : PyVal)
    (hl : SafeEvaluator.visit l = .ok lv) (hr : SafeEvaluator.visit r = .ok rv) :
    SafeEvaluator.visit (.binOp l op r) = binOpApply op lv rv := by
  simp [SafeEvaluator.visit, hl, hr]

/-- A successful binary node yields successful operand evaluations and a
successful operator application. -/
theorem visit_binOp_inv (l r : PyAst) (op : BinOpKind) (v : PyVal)
    (h : SafeEvaluator.visit (.binOp l op r) = .ok v) :
    ∃ lv rv, SafeEvaluator.visit l = .ok lv ∧ SafeEvaluator.visit r = .ok rv ∧
      binOpApply op lv rv = .ok v := by
  cases hl : SafeEvaluator.visit l with
  | error e => simp [SafeEvaluator.visit, hl] at h
  | ok lv =>
    cases hr : SafeEvaluator.visit r with
    | error e => simp [SafeEvaluator.visit, hl, hr] at h
    | ok rv =>
      refine ⟨lv, rv, rfl, rfl, ?_⟩
      simpa [SafeEvaluator.visit, hl, hr] using h

/-- A successful operator application comes from the looked-up operator
function succeeding. -/
theorem binOpApply_ok (op : BinOpKind) (f : PyVal → PyVal → Except PyExc PyVal)
    (lv rv : PyVal) (v : PyVal) (hf : BINARY_OPERATORS op = some f)
    (h : binOpApply op lv rv = .ok v) : f lv rv = .ok v := by
  unfold binOpApply at h
  rw [hf] at h
  cases hfa : f lv rv with
  | ok w =>
    simp only [hfa] at h
    exact h
  | error e =>
    simp only [hfa] at h
    cases e <;> simp at h

/-- operator.truediv raises ZeroDivisionError on every numeric left
operand and zero right operand. -/
theorem pyDiv_zero (lv rv : PyVal) (hlv : isNumericVal lv = true)
    (hrv : isZeroVal rv = true) : pyDiv lv rv = .error .ZeroDivisionError := by
  cases lv <;> cases rv <;>
    simp_all [isNumericVal, isZeroVal, pyDiv, PyVal.asRat, PyVal.asIntish]

/-- operator.floordiv raises ZeroDivisionError on every numeric left
operand and zero right operand. -/
theorem pyFloorDiv_zero (lv rv : PyVal) (hlv : isNumericVal lv = true)
    (hrv : isZeroVal rv = true) : pyFloorDiv lv rv = .error .ZeroDivisionError := by
  cases lv <;> cases rv <;>
    simp_all [isNumericVal, isZeroVal, pyFloorDiv, PyVal.asRat, PyVal.asIntish]

/-- operator.mod raises ZeroDivisionError on every numeric left operand
and zero right operand. -/
theorem pyMod_zero (lv rv : PyVal) (hlv : isNumericVal lv = true)
    (hrv : isZeroVal rv = true) : pyMod lv rv = .error .ZeroDivisionError := by
  cases lv <;> cases rv <;>
    simp_all [isNumericVal, isZeroVal, pyMod, PyVal.asRat, PyVal.asIntish]

/-- C4: for every division, floor division or modulo whose operands
evaluate, the left one to a number and the right one to zero, the
evaluator fails with the specific Russian division-by-zero ValueError
spelled in visit_BinOp: the underlying ZeroDivisionError is caught and
translated, never surfaced as is; in particular 10 / 0 fails that way
end to end. -/
theorem C4_division_by_zero :
    (∀ (l r : PyAst) (op : BinOpKind) (lv rv : PyVal),
        op = .div ∨ op = .floorDiv ∨ op = .mod →
        SafeEvaluator.visit l = .ok lv → isNumericVal lv = true →
        SafeEvaluator.visit r = .ok rv → isZeroVal rv = true →
        SafeEvaluator.visit (.binOp l op r) =
          .error (.ValueError "Деление на ноль недопустимо")) ∧
    evaluate_expression "10 / 0" = .error (.ValueError "Деление на ноль недопустимо") := by
  constructor
  · intro l r op lv rv hop hl hlv hr hrv
    rw [visit_binOp_def l r op lv rv hl hr]
    rcases hop with h | h | h <;> subst h <;>
      simp [binOpApply, BINARY_OPERATORS,
        pyDiv_zero lv rv hlv hrv, pyFloorDiv_zero lv rv hlv hrv,
        pyMod_zero lv rv hlv hrv]
  · rfl

/-- C4 witness: the division node for 10 / 0 produces the translated
division-by-zero error. -/
theorem C4_witness :
    SafeEvaluator.visit (.binOp (.constant (.cint 10)) .div (.constant (.cint 0))) =
      .error (.ValueError "Деление на ноль недопустимо") :=
  C4_division_by_zero.1 _ _ _ _ _ (Or.inl rfl) rfl rfl rfl rfl

/-- Every successful result of operator.truediv is a float. -/
theorem pyDiv_ok_float (a b v : PyVal) (h : pyDiv a b = .ok v) :
    ∃ q : ℚ, v = .vfloat q := by
  unfold pyDiv at h
  split at h
  · split at h
    · simp at h
    · exact ⟨_, (by simpa using h.symm)⟩
  · simp at h

/-- C7: true division always produces a float, even on two integer
literals; there is no integer truncation path. Concretely 10 / 4 is the
float 5/2, not the int 2. -/
theorem C7_truediv_always_float :
    (∀ (l r : PyAst) (v : PyVal),
        SafeEvaluator.visit (.binOp l .div r) = .ok v → ∃ q : ℚ, v = .vfloat q) ∧
    isFloatResult (evaluate_expression "10 / 4") 5 2 = true := by
  constructor
  · intro l r v h
    obtain ⟨lv, rv, _, _, happ⟩ := visit_binOp_inv l r .div v h
    exact pyDiv_ok_float lv rv v (binOpApply_ok .div pyDiv lv rv v rfl happ)
  · rfl

/-- C7 witness: the node for 10 / 4 evaluates to some float. -/
theorem C7_witness :
    ∃ q : ℚ, PyVal.vfloat (ratDiv (mkRat 10 1) (mkRat 4 1)) = .vfloat q :=
  C7_truediv_always_float.1 (.constant (.cint 10)) (.constant (.cint 4))
    (.vfloat (ratDiv (mkRat 10 1) (mkRat 4 1))) rfl

/-- C10: the try/except around the operator application in visit_BinOp
wraps every operator of the BINARY_OPERATORS dictionary, power included:
whenever the looked-up function raises ZeroDivisionError the evaluator
reports the same Russian division-by-zero ValueError as for division.
operator.pow raises exactly that on a zero base and negative exponent,
so 0 ** -1 fails with the division message, not a distinct domain
error. -/
theorem C10_pow_shares_zero_guard :
    (∀ (l r : PyAst) (op : BinOpKind) (f : PyVal → PyVal → Except PyExc PyVal)
        (lv rv : PyVal),
        BINARY_OPERATORS op = some f →
        SafeEvaluator.visit l = .ok lv → SafeEvaluator.visit r = .ok rv →
        f lv rv = .error .ZeroDivisionError →
        SafeEvaluator.visit (.binOp l op r) =
          .error (.ValueError "Деление на ноль недопустимо")) ∧
    pyPow (.vint 0) (.vint (-1)) = .error .ZeroDivisionError ∧
    evaluate_expression "0 ** -1" = .error (.ValueError "Деление на ноль недопустимо") := by
  refine ⟨?_, rfl, rfl⟩
  intro l r op f lv rv hf hl hr happ
  rw [visit_binOp_def l r op lv rv hl hr]
  simp only [binOpApply, hf, happ]

/-- C10 witness: the parsed tree of 0 ** -1, with the power operator
looked up and applied to the zero base, yields the translated error. -/
theorem C10_witness :
    SafeEvaluator.visit
        (.binOp (.constant (.cint 0)) .pow (.unaryOp .uSub (.constant (.cint 1)))) =
      .error (.ValueError "Деление на ноль недопустимо") :=
  C10_pow_shares_zero_guard.1 _ _ .pow pyPow _ _ rfl rfl rfl rfl

/-- C2 counterexample: the statement-wrapper node Expr is outside
{Literal, UnaryOp, BinaryOp}, yet the evaluator does not fail on it:
generic_visit finds it in the allowed_nodes tuple, visits its child and
returns None. -/
theorem C2_counterexample :
    SafeEvaluator.visit (.exprStmt (.constant (.cint 1))) = .ok .vnone := rfl

/-- C2 amended: the runtime check of generic_visit runs in the evaluator
itself, on every tree regardless of origin, but its closed set is the
allowed_nodes tuple, not {Literal, UnaryOp, BinaryOp}: every node without
a dedicated visitor and outside the tuple fails with the invalid
construct ValueError naming its kind, while the tuple members Load and
Expr are visited successfully and return None. -/
theorem C2_generic_visit_allowlist :
    (∀ t : PyAst, reachesGenericVisit t = true → inAllowedNodes t = false →
        SafeEvaluator.visit t =
          .error (.ValueError ("Недопустимая конструкция: " ++ t.kindName))) ∧
    SafeEvaluator.visit .load = .ok .vnone := by
  constructor
  · intro t h1 h2
    cases t <;> first | rfl | simp_all [reachesGenericVisit, inAllowedNodes]
  · rfl

/-- C2 witness: a Compare node is rejected by the generic_visit check
with the invalid construct message naming Compare. -/
theorem C2_witness :
    SafeEvaluator.visit (.compare (.constant (.cint 1)) []) =
      .error (.ValueError ("Недопустимая конструкция: " ++
        PyAst.kindName (.compare (.constant (.cint 1)) []))) :=
  C2_generic_visit_allowlist.1 _ rfl rfl

/-- C3 counterexample: the input True consists of one boolean token, yet
the system neither raises a SyntaxError nor fails at evaluation: the
Python grammar accepts it as a constant and visit_Constant admits it
because bool is a subclass of int, so evaluation succeeds with True. -/
theorem C3_counterexample : evaluate_expression "True" = .ok (.vbool true) := rfl

/-- C3 amended: inputs with identifiers, calls, strings, lists or
comparisons are rejected, but not at the grammar level: they parse
successfully under the Python expression grammar and the evaluator
rejects them with ValueError (identifiers and calls by their dedicated
visitors, strings by the numeric-literal check, lists and comparisons by
the generic_visit allow-list); boolean keyword inputs even evaluate
successfully, since bool is an int subclass. Only text malformed for the
Python grammar raises SyntaxError, which evaluate_expression re-raises
as a ValueError with the Russian syntax-error prefix. -/
theorem C3_rejection_is_evaluation_time :
    pyParse (preprocess_expression "x + 1") =
      .ok (.expression (.binOp (.name "x") .add (.constant (.cint 1)))) ∧
    evaluate_expression "x + 1" = .error (.ValueError "Имена/переменные не разрешены") ∧
    evaluate_expression "__import__(\"os\")" =
      .error (.ValueError "Вызовы функций не разрешены") ∧
    evaluate_expression "\"os\"" =
      .error (.ValueError "Разрешены только числовые литералы") ∧
    evaluate_expression "[1]" = .error (.ValueError "Недопустимая конструкция: List") ∧
    evaluate_expression "1 < 2" =
      .error (.ValueError "Недопустимая конструкция: Compare") ∧
    evaluate_expression "x +" =
      .error (.ValueError "Синтаксическая ошибка: invalid syntax") :=
  ⟨rfl, rfl, rfl, rfl, rfl, rfl, rfl⟩

/-- C5: operator precedence and parenthesis grouping are respected in
the pipeline: 2 + 3 * 4 is 14 and (2 + 3) * 4 is 20. -/
theorem C5_precedence_and_grouping :
    evaluate_expression "2 + 3 * 4" = .ok (.vint 14) ∧
    evaluate_expression "(2 + 3) * 4" = .ok (.vint 20) := ⟨rfl, rfl⟩

/-- C8 counterexample: exponent notation is not a syntax error: 1e10 is
accepted by the Python grammar as a float literal and evaluates to the
float 10000000000. -/
theorem C8_counterexample :
    isFloatResult (evaluate_expression "1e10") 10000000000 1 = true := rfl

/-- C8 amended: numeric literals cover integer, decimal-point and
exponent-notation forms; exponent notation evaluates successfully as a
float rather than being rejected, while genuinely malformed literals
such as 1e are syntax errors surfaced through the ValueError wrapper. -/
theorem C8_exponent_notation_accepted :
    isFloatResult (evaluate_expression "1e10") 10000000000 1 = true ∧
    isFloatResult (evaluate_expression "2.5") 5 2 = true ∧
    evaluate_expression "12" = .ok (.vint 12) ∧
    evaluate_expression "1e" =
      .error (.ValueError "Синтаксическая ошибка: invalid decimal literal") :=
  ⟨rfl, rfl, rfl, rfl⟩

/-- A chain of unary-plus nodes always evaluates to the int 0. -/
theorem visit_nestPos : ∀ n : Nat, SafeEvaluator.visit (nestPos n) = .ok (.vint 0)
  | 0 => rfl
  | n + 1 => by
    simp [nestPos, SafeEvaluator.visit, visit_nestPos n, unaryOpApply,
      UNARY_OPERATORS, pyPos]

/-- The depth of the unary chain grows with its length. -/
theorem nestPos_depth : ∀ n : Nat, (nestPos n).depth = n + 1
  | 0 => rfl
  | n + 1 => by simp [nestPos, PyAst.depth, nestPos_depth n]

/-- C9 counterexample: no enforced depth limit exists in the code; a
structurally valid tree of depth 10001 (far beyond the default CPython
recursion limit of 1000 that would make the real interpreter die with
RecursionError) is evaluated successfully by the evaluator logic rather
than rejected with the documented error. -/
theorem C9_counterexample :
    (nestPos 10000).depth = 10001 ∧
    SafeEvaluator.visit (nestPos 10000) = .ok (.vint 0) := by
  constructor
  · rw [nestPos_depth]
  · exact visit_nestPos 10000

/-- C9 amended: evaluate_expression imposes no maximum recursion or
nesting depth: the recursive walk succeeds on structurally valid trees
of every depth, so pathological nesting is bounded only by the host
interpreter call stack (RecursionError), never reported as the
documented ValueError. -/
theorem C9_no_enforced_depth_limit :
    ∀ n : Nat, (nestPos n).depth = n + 1 ∧
      SafeEvaluator.visit (nestPos n) = .ok (.vint 0) :=
  fun n => ⟨nestPos_depth n, visit_nestPos n⟩

/-- Caret replacement leaves no caret behind: the two substituted stars
are not carets and every other character is kept only when unchanged. -/
theorem caretToPow_no_caret : ∀ l : List Char,
    (caretToPow l).all (fun c => c != '^') = true
  | [] => rfl
  | c :: cs => by
    rw [caretToPow]
    by_cases hc : c = '^'
    · subst hc
      simp [List.all_cons, caretToPow_no_caret cs]
    · rw [if_neg hc]
      simp [List.all_cons, caretToPow_no_caret cs, hc]

/-- Dropping a prefix preserves an all-characters property. -/
theorem all_dropWhile {p q : Char → Bool} : ∀ l : List Char,
    l.all q = true → (l.dropWhile p).all q = true := by
  intro l h
  rw [List.all_eq_true] at h ⊢
  intro x hx
  exact h x ((List.dropWhile_sublist p).subset hx)

/-- Reversal preserves an all-characters property. -/
theorem all_reverse {q : Char → Bool} (l : List Char)
    (h : l.all q = true) : l.reverse.all q = true := by
  rw [List.all_eq_true] at h ⊢
  intro x hx
  exact h x (List.mem_reverse.mp hx)

/-- Stripping preserves an all-characters property. -/
theorem pyStrip_all {q : Char → Bool} (l : List Char)
    (h : l.all q = true) : (pyStrip l).all q = true := by
  unfold pyStrip
  exact all_reverse _ (all_dropWhile _ (all_reverse _ (all_dropWhile l h)))

/-- After dropping leading whitespace the first character, when any, is
not whitespace. -/
theorem noLead_dropWhile : ∀ l : List Char,
    noLeadingPySpace (l.dropWhile isPySpace) = true
  | [] => rfl
  | c :: cs => by
    by_cases h : isPySpace c
    · simp [List.dropWhile_cons, h, noLead_dropWhile cs]
    · simp [List.dropWhile_cons, h, noLeadingPySpace]

/-- The reversal of a stripped list starts with a non-whitespace
character: stripping removes trailing whitespace. -/
theorem noLead_strip_reverse (l : List Char) :
    noLeadingPySpace (pyStrip l).reverse = true := by
  unfold pyStrip
  rw [List.reverse_reverse]
  exact noLead_dropWhile _

/-- Dropping a whitespace prefix does not touch a final non-whitespace
character. -/
theorem dropWhile_append_single : ∀ (l : List Char) (c : Char),
    isPySpace c = false →
    (l ++ [c]).dropWhile isPySpace = l.dropWhile isPySpace ++ [c]
  | [], c, h => by simp [List.dropWhile_cons, h]
  | x :: l, c, h => by
    by_cases hx : isPySpace x
    · simp [List.dropWhile_cons, hx, dropWhile_append_single l c h]
    · simp [List.dropWhile_cons, hx]

/-- A stripped list starts with a non-whitespace character: stripping
removes leading whitespace. -/
theorem noLead_strip : ∀ l : List Char, noLeadingPySpace (pyStrip l) = true := by
  intro l
  unfold pyStrip
  cases hq : l.dropWhile isPySpace with
  | nil => rfl
  | cons c cs =>
    have hc : isPySpace c = false := by
      have hnl := noLead_dropWhile l
      rw [hq] at hnl
      simpa [noLeadingPySpace] using hnl
    rw [List.reverse_cons, dropWhile_append_single _ _ hc, List.reverse_append]
    simp [noLeadingPySpace, hc]

/-- C6: for every input string the preprocessor output is total, has
every caret replaced (no caret survives, and a caret input turns into
the double-star operator), and carries no leading or trailing
whitespace; consequently the caret spelling 2 ^ 10 evaluates to 1024
through the power operator. -/
theorem C6_preprocess_caret_and_strip :
    (∀ s : String,
        (preprocess_expression s).data.all (fun c => c != '^') = true ∧
        noLeadingPySpace (preprocess_expression s).data = true ∧
        noLeadingPySpace (preprocess_expression s).data.reverse = true) ∧
    preprocess_expression " 2 ^ 10  " = "2 ** 10" ∧
    preprocess_expression "   " = "" ∧
    evaluate_expression "2 ^ 10" = .ok (.vint 1024) := by
  refine ⟨fun s => ⟨?_, ?_, ?_⟩, rfl, rfl, rfl⟩
  · exact pyStrip_all _ (caretToPow_no_caret s.data)
  · exact noLead_strip _
  · exact noLead_strip_reverse _
